import Mathlib

/-!
Verification of the parallel scrape orchestration subsystem of the b-work
repository (Driver.py, Scraper.py, WebAutomation.py), via a shallow
embedding of the relevant Python functions into Lean.

Python integers are unbounded, so ids are modelled as `Int`; Python's `%`
on a positive divisor agrees with Lean's `Int.emod`.
-/

/-- `ir s n` is the list `[s, s+1, ..., s+n-1]` — Python's `range`
semantics with an explicit length. -/
def ir (s : Int) : Nat → List Int
  | 0 => []
  | n + 1 => s :: ir (s + 1) n

/-- Python `range(start, stop)`: ascending ids from `start` (inclusive)
to `stop` (exclusive); empty when `stop ≤ start`. -/
def intRange (start stop : Int) : List Int :=
  ir start (stop - start).toNat

/-- A value appended into the partitioner's bucket dictionary in
`Driver.add_item_range_parallel`: a bare integer id for item_type
`request`, a rendered string `pref + str(id)` for item_type `order`. -/
inductive ScrapedId where
  | num (n : Int)
  | str (s : String)
deriving DecidableEq

/-- One iteration of the bucket-building loop of
`Driver.add_item_range_parallel` (lines 171-177): compute
`process_num = item_id % num_processes` and append the (possibly
rendered) id to the bucket `id_dict[process_num]`.  Buckets are modelled
as a total map from bucket key to list, matching `defaultdict(list)`. -/
def step (item_type pref : String) (num_processes : Int)
    (d : Int → List ScrapedId) (item_id : Int) : Int → List ScrapedId :=
  let process_num := item_id % num_processes
  fun k =>
    if item_type = "request" then
      (if k = process_num then d k ++ [ScrapedId.num item_id] else d k)
    else if item_type = "order" then
      (if k = process_num then d k ++ [ScrapedId.str (pref ++ toString item_id)] else d k)
    else d k

/-- The bucket dictionary built by `Driver.add_item_range_parallel`
(lines 171-177): fold the loop body over `range(start, stop)` starting
from the empty `defaultdict(list)`. -/
def id_dict (item_type : String) (start stop num_processes : Int)
    (pref : String) : Int → List ScrapedId :=
  (intRange start stop).foldl (step item_type pref num_processes) (fun _ => [])

/-- The worker argument list built by `Driver.add_item_range_parallel`
(lines 179-185), reduced to the fields the claims are about: for
`process_id in range(num_processes)` the spawned worker receives index
`process_id + 1` (process 0 is reserved for the primary driver database)
and the bucket `id_dict[process_id]`. -/
def args_list (item_type : String) (start stop num_processes : Int)
    (pref : String) : List (Int × List ScrapedId) :=
  (intRange 0 num_processes).map
    (fun process_id =>
      (process_id + 1, id_dict item_type start stop num_processes pref process_id))

/-- The rendering applied to an id before it is appended to its bucket,
read off the two `append` sites of the loop; `none` for an item_type
that is neither request nor order (the loop then appends nothing). -/
def renderOpt (item_type pref : String) (item_id : Int) : Option ScrapedId :=
  if item_type = "request" then some (ScrapedId.num item_id)
  else if item_type = "order" then some (ScrapedId.str (pref ++ toString item_id))
  else none

/-- The ids of `range(start, stop)` that the mod rule sends to bucket
`k`, before rendering. -/
def idsAssigned (start stop num_processes k : Int) : List Int :=
  (intRange start stop).filter (fun x => x % num_processes = k)

/-- The flooring applied by `Driver.scrape_range_prompt` (lines 90-92)
before partitioning: for item_type `request`, `start = max(1, start)`
then `stop = max(start, stop)`; no flooring for any other item_type. -/
def floor_range (item_type : String) (start stop : Int) : Int × Int :=
  if item_type = "request" then
    (max 1 start, max (max 1 start) stop)
  else (start, stop)

-- ### Basic lemmas about the range model

theorem mem_ir {x : Int} : ∀ {n : Nat} {s : Int}, x ∈ ir s n ↔ s ≤ x ∧ x < s + n := by
  intro n
  induction n with
  | zero => intro s; simp [ir]
  | succ m ih =>
    intro s
    simp only [ir, List.mem_cons, ih]
    omega

theorem count_ir {x : Int} : ∀ {n : Nat} {s : Int},
    (ir s n).count x = if s ≤ x ∧ x < s + n then 1 else 0 := by
  intro n
  induction n with
  | zero =>
    intro s
    have h0 : ¬ (s ≤ x ∧ x < s + ((0 : Nat) : Int)) := by omega
    rw [ir, if_neg h0]
    rfl
  | succ m ih =>
    intro s
    rw [ir, List.count_cons, ih]
    by_cases h : s = x
    · subst h
      simp only [beq_self_eq_true, if_true]
      have h1 : ¬ (s + 1 ≤ s ∧ s < s + 1 + m) := by omega
      have h2 : s ≤ s ∧ s < s + (m + 1 : Nat) := by omega
      simp [h1, h2]
    · have hbx : (s == x) = false := by simp [h]
      have h3 : (s + 1 ≤ x ∧ x < s + 1 + m) ↔ (s ≤ x ∧ x < s + (m + 1 : Nat)) := by
        constructor <;> intro hh <;> omega
      simp [hbx, h3]

theorem mem_intRange {x start stop : Int} :
    x ∈ intRange start stop ↔ start ≤ x ∧ x < stop := by
  rw [intRange, mem_ir]
  omega

theorem count_intRange {x start stop : Int} :
    (intRange start stop).count x = if start ≤ x ∧ x < stop then 1 else 0 := by
  rw [intRange, count_ir]
  have h : (start ≤ x ∧ x < start + ((stop - start).toNat : Int)) ↔
      (start ≤ x ∧ x < stop) := by
    constructor <;> intro hh <;> omega
  simp only [h]

-- ### Characterizing the bucket dictionary

theorem step_apply (item_type pref : String) (P : Int) (d : Int → List ScrapedId)
    (x k : Int) :
    step item_type pref P d x k =
      d k ++ (if k = x % P then (renderOpt item_type pref x).toList else []) := by
  simp only [step, renderOpt]
  split_ifs <;> simp

theorem foldl_step (item_type pref : String) (P : Int) :
    ∀ (l : List Int) (d : Int → List ScrapedId) (k : Int),
      (l.foldl (step item_type pref P) d) k =
        d k ++ (l.filter (fun x => x % P = k)).filterMap (renderOpt item_type pref) := by
  intro l
  induction l with
  | nil => intro d k; simp
  | cons x l ih =>
    intro d k
    rw [List.foldl_cons, ih, step_apply]
    by_cases h : x % P = k
    · rw [if_pos h.symm]
      have hf : (x :: l).filter (fun y => y % P = k) = x :: l.filter (fun y => y % P = k) := by
        simp [List.filter_cons, h]
      rw [hf, List.filterMap_cons]
      cases hr : renderOpt item_type pref x <;> simp
    · rw [if_neg (fun hh => h hh.symm)]
      have hf : (x :: l).filter (fun y => y % P = k) = l.filter (fun y => y % P = k) := by
        simp [List.filter_cons, h]
      rw [hf]
      simp

theorem id_dict_eq (item_type pref : String) (start stop P k : Int) :
    id_dict item_type start stop P pref k =
      (idsAssigned start stop P k).filterMap (renderOpt item_type pref) := by
  rw [id_dict, idsAssigned, foldl_step]
  simp

theorem filterMap_some_eq_map (f : Int → ScrapedId) :
    ∀ l : List Int, l.filterMap (fun x => some (f x)) = l.map f := by
  intro l
  induction l with
  | nil => simp
  | cons x l ih => simp [List.filterMap_cons, ih]

theorem id_dict_request (pref : String) (start stop P k : Int) :
    id_dict "request" start stop P pref k =
      (idsAssigned start stop P k).map ScrapedId.num := by
  rw [id_dict_eq]
  have h : renderOpt "request" pref = fun x => some (ScrapedId.num x) := by
    funext x
    simp [renderOpt]
  rw [h, filterMap_some_eq_map]

theorem id_dict_order (pref : String) (start stop P k : Int) :
    id_dict "order" start stop P pref k =
      (idsAssigned start stop P k).map (fun x => ScrapedId.str (pref ++ toString x)) := by
  rw [id_dict_eq]
  have h : renderOpt "order" pref = fun x => some (ScrapedId.str (pref ++ toString x)) := by
    funext x
    simp [renderOpt]
  rw [h, filterMap_some_eq_map]

theorem id_dict_other (item_type pref : String) (start stop P k : Int)
    (h1 : item_type ≠ "request") (h2 : item_type ≠ "order") :
    id_dict item_type start stop P pref k = [] := by
  rw [id_dict_eq]
  have h : renderOpt item_type pref = fun _ => none := by
    funext x
    simp [renderOpt, h1, h2]
  rw [h]
  simp

theorem mem_args_list {w : Int} {items : List ScrapedId}
    {item_type pref : String} {start stop P : Int} :
    (w, items) ∈ args_list item_type start stop P pref ↔
      ∃ pid, 0 ≤ pid ∧ pid < P ∧ w = pid + 1 ∧
        items = id_dict item_type start stop P pref pid := by
  rw [args_list, List.mem_map]
  constructor
  · rintro ⟨pid, hmem, heq⟩
    rw [mem_intRange] at hmem
    refine ⟨pid, by omega, by omega, ?_, ?_⟩
    · exact (Prod.mk.injEq _ _ _ _ ▸ heq).1.symm
    · exact (Prod.mk.injEq _ _ _ _ ▸ heq).2.symm
  · rintro ⟨pid, h0, hP, hw, hi⟩
    exact ⟨pid, mem_intRange.mpr ⟨h0, by omega⟩, by rw [hw, hi]⟩

theorem count_idsAssigned {id : Int} {start stop P k : Int} :
    (idsAssigned start stop P k).count id =
      if id % P = k ∧ start ≤ id ∧ id < stop then 1 else 0 := by
  rw [idsAssigned]
  by_cases h : id % P = k
  · rw [List.count_filter (by simp [h]), count_intRange]
    simp [h]
  · have hn : id ∉ (intRange start stop).filter (fun x => x % P = k) := by
      intro hmem
      rw [List.mem_filter] at hmem
      exact h (by simpa using hmem.2)
    rw [List.count_eq_zero_of_not_mem hn]
    simp [h]

-- ### Bucket sizes under the mod rule

/-- Distance (mod `P`) from `s` up to the first integer `≥ s` whose
residue is `k`. -/
def off (P k s : Int) : Nat := ((k - s) % P).toNat

theorem off_lt {P : Int} (hP : 0 < P) (k s : Int) : off P k s < P.toNat := by
  have h1 : 0 ≤ (k - s) % P := Int.emod_nonneg _ (by omega)
  have h2 : (k - s) % P < P := Int.emod_lt_of_pos _ hP
  rw [off]
  omega

theorem off_zero_iff {P k : Int} (hP : 0 < P) (hk0 : 0 ≤ k) (hkP : k < P) (s : Int) :
    s % P = k ↔ off P k s = 0 := by
  have hkk : k % P = k := Int.emod_eq_of_lt hk0 hkP
  have h1 : 0 ≤ (k - s) % P := Int.emod_nonneg _ (by omega)
  have hiff : s % P = k ↔ (k - s) % P = 0 := by
    constructor
    · intro h
      have : k % P = s % P := by rw [hkk, h]
      exact Int.emod_eq_emod_iff_emod_sub_eq_zero.mp this
    · intro h
      have : k % P = s % P := Int.emod_eq_emod_iff_emod_sub_eq_zero.mpr h
      rw [hkk] at this
      exact this.symm
  rw [hiff, off]
  omega

theorem off_succ {P k : Int} (hP : 0 < P) (_hk0 : 0 ≤ k) (_hkP : k < P) (s : Int) :
    off P k (s + 1) = if off P k s = 0 then P.toNat - 1 else off P k s - 1 := by
  have hdecomp := Int.ediv_add_emod (k - s) P
  have ho0 : 0 ≤ (k - s) % P := Int.emod_nonneg _ (by omega)
  have hoP : (k - s) % P < P := Int.emod_lt_of_pos _ hP
  have hsplit : k - (s + 1) = ((k - s) % P - 1) + P * ((k - s) / P) := by omega
  have hmod : (k - (s + 1)) % P = ((k - s) % P - 1) % P := by
    rw [hsplit, Int.add_mul_emod_self_left]
  by_cases h : (k - s) % P = 0
  · have hneg : ((k - s) % P - 1) % P = P - 1 := by
      rw [h]
      have hrw : (0 : Int) - 1 = P - 1 + P * (-1) := by ring
      rw [hrw, Int.add_mul_emod_self_left]
      exact Int.emod_eq_of_lt (by omega) (by omega)
    have hz : off P k s = 0 := by rw [off, h]; rfl
    rw [off, hmod, hneg, if_pos hz]
    omega
  · have hlt : ((k - s) % P - 1) % P = (k - s) % P - 1 :=
      Int.emod_eq_of_lt (by omega) (by omega)
    have hnz : off P k s ≠ 0 := by rw [off]; omega
    rw [off, hmod, hlt, if_neg hnz, off]
    omega

theorem filter_ir_length {P k : Int} (hP : 0 < P) (hk0 : 0 ≤ k) (hkP : k < P) :
    ∀ (n : Nat) (s : Int),
      ((ir s n).filter (fun x => x % P = k)).length
        = (n + (P.toNat - 1) - off P k s) / P.toNat := by
  have hp' : 1 ≤ P.toNat := by omega
  intro n
  induction n with
  | zero =>
    intro s
    rw [ir]
    simp only [List.filter_nil, List.length_nil]
    rw [Nat.div_eq_of_lt (by omega)]
  | succ m ih =>
    intro s
    rw [ir, List.filter_cons]
    by_cases h : s % P = k
    · have ho : off P k s = 0 := (off_zero_iff hP hk0 hkP s).mp h
      have ho' : off P k (s + 1) = P.toNat - 1 := by
        rw [off_succ hP hk0 hkP, if_pos ho]
      rw [if_pos (by simpa using h)]
      simp only [List.length_cons, ih, ho, ho']
      have e1 : m + (P.toNat - 1) - (P.toNat - 1) = m := by omega
      have e2 : (m + 1) + (P.toNat - 1) - 0 = m + P.toNat := by omega
      rw [e1, e2, Nat.add_div_right _ (by omega)]
    · have ho : off P k s ≠ 0 := fun hz => h ((off_zero_iff hP hk0 hkP s).mpr hz)
      have holt := off_lt hP k s
      have ho' : off P k (s + 1) = off P k s - 1 := by
        rw [off_succ hP hk0 hkP, if_neg ho]
      rw [if_neg (by simpa using h)]
      rw [ih, ho']
      congr 1
      omega

theorem length_idsAssigned {start stop P k : Int} (hP : 0 < P) (hk0 : 0 ≤ k) (hkP : k < P) :
    (idsAssigned start stop P k).length
      = ((stop - start).toNat + (P.toNat - 1) - off P k start) / P.toNat := by
  rw [idsAssigned, intRange]
  exact filter_ir_length hP hk0 hkP _ _

theorem idsAssigned_balance {start stop P k1 k2 : Int} (hP : 0 < P)
    (h10 : 0 ≤ k1) (h1P : k1 < P) (h20 : 0 ≤ k2) (h2P : k2 < P) :
    (idsAssigned start stop P k1).length ≤ (idsAssigned start stop P k2).length + 1 := by
  rw [length_idsAssigned hP h10 h1P, length_idsAssigned hP h20 h2P]
  have ho1 := off_lt hP k1 start
  have ho2 := off_lt hP k2 start
  have hstep : ((stop - start).toNat + (P.toNat - 1) - off P k1 start)
      ≤ ((stop - start).toNat + (P.toNat - 1) - off P k2 start) + P.toNat := by omega
  calc ((stop - start).toNat + (P.toNat - 1) - off P k1 start) / P.toNat
      ≤ (((stop - start).toNat + (P.toNat - 1) - off P k2 start) + P.toNat) / P.toNat :=
        Nat.div_le_div_right hstep
    _ = ((stop - start).toNat + (P.toNat - 1) - off P k2 start) / P.toNat + 1 :=
        Nat.add_div_right _ (by omega)

-- ### Helper lemmas for the claim theorems

theorem num_injective : Function.Injective ScrapedId.num := by
  intro a b hab
  simpa using hab

theorem count_num_map (l : List Int) (id : Int) :
    (l.map ScrapedId.num).count (ScrapedId.num id) = l.count id :=
  List.count_map_of_injective l ScrapedId.num num_injective id

theorem intRange_empty {start stop : Int} (h : stop ≤ start) :
    intRange start stop = [] := by
  rw [intRange]
  have h0 : (stop - start).toNat = 0 := by omega
  rw [h0]
  rfl

theorem emod_bounds (id P : Int) (hP : 1 ≤ P) : 0 ≤ id % P ∧ id % P < P :=
  ⟨Int.emod_nonneg _ (by omega), Int.emod_lt_of_pos _ (by omega)⟩

-- ### Claim theorems about the partitioner

/-- C1: for every `start < stop` and `process_count ≥ 1`, the buckets
handed to the workers cover `[start, stop)` completely and disjointly:
an id in the range appears exactly once in the bucket of worker
`(id % process_count) + 1` and zero times in every other worker's
bucket, for both item kinds (for `order` the bucket is the rendered
image of exactly those ids). -/
theorem partition_cover_unique (start stop P id : Int) (pref : String)
    (hP : 1 ≤ P) (h1 : start ≤ id) (h2 : id < stop) :
    (∀ w items, (w, items) ∈ args_list "request" start stop P pref →
        items.count (ScrapedId.num id) = if w = id % P + 1 then 1 else 0)
    ∧ (∃ items, (id % P + 1, items) ∈ args_list "request" start stop P pref ∧
        items.count (ScrapedId.num id) = 1)
    ∧ (∀ w items, (w, items) ∈ args_list "order" start stop P pref →
        items = (idsAssigned start stop P (w - 1)).map
            (fun x => ScrapedId.str (pref ++ toString x))
          ∧ (idsAssigned start stop P (w - 1)).count id =
              if w = id % P + 1 then 1 else 0) := by
  obtain ⟨hm0, hmP⟩ := emod_bounds id P hP
  refine ⟨?_, ?_, ?_⟩
  · intro w items hmem
    rcases mem_args_list.mp hmem with ⟨pid, hp0, hpP, hw, hi⟩
    subst hi
    rw [id_dict_request, count_num_map, count_idsAssigned]
    by_cases hc : id % P = pid
    · rw [if_pos ⟨hc, h1, h2⟩, if_pos (by omega)]
    · rw [if_neg (by tauto), if_neg (by omega)]
  · refine ⟨id_dict "request" start stop P pref (id % P),
      mem_args_list.mpr ⟨id % P, hm0, hmP, rfl, rfl⟩, ?_⟩
    rw [id_dict_request, count_num_map, count_idsAssigned,
      if_pos ⟨rfl, h1, h2⟩]
  · intro w items hmem
    rcases mem_args_list.mp hmem with ⟨pid, hp0, hpP, hw, hi⟩
    subst hi
    have hw1 : w - 1 = pid := by omega
    refine ⟨by rw [id_dict_order, hw1], ?_⟩
    rw [hw1, count_idsAssigned]
    by_cases hc : id % P = pid
    · rw [if_pos ⟨hc, h1, h2⟩, if_pos (by omega)]
    · rw [if_neg (by tauto), if_neg (by omega)]

theorem partition_cover_unique_witness :
    ((2 : Int), id_dict "request" 0 4 2 "X" 1) ∈ args_list "request" 0 4 2 "X" ∧
    (id_dict "request" 0 4 2 "X" 1).count (ScrapedId.num 3) = 1 := by
  refine ⟨by decide, ?_⟩
  have h := (partition_cover_unique 0 4 2 3 "X" (by decide) (by decide) (by decide)).1
    2 (id_dict "request" 0 4 2 "X" 1) (by decide)
  simpa using h

/-- C6: worker index 0 never appears in a parallel assignment — with
`P > 1` workers, every entry of the argument list built by
`Driver.add_item_range_parallel` carries a worker index in `1..P`. -/
theorem worker_index_reserved (item_type pref : String) (start stop P : Int)
    (_hP : 1 < P) :
    ∀ w items, (w, items) ∈ args_list item_type start stop P pref →
      w ≠ 0 ∧ 1 ≤ w ∧ w ≤ P := by
  intro w items hmem
  rcases mem_args_list.mp hmem with ⟨pid, h0, hp, hw, _⟩
  omega

theorem worker_index_reserved_witness :
    ((2 : Int), id_dict "request" 0 4 2 "" 1) ∈ args_list "request" 0 4 2 "" ∧
    ((2 : Int) ≠ 0 ∧ (1 : Int) ≤ 2 ∧ (2 : Int) ≤ 2) :=
  ⟨by decide,
    worker_index_reserved "request" "" 0 4 2 (by decide) 2
      (id_dict "request" 0 4 2 "" 1) (by decide)⟩

/-- C8: the partition is deterministic — the argument list (buckets and
worker indices) is purely a function of `(item_type, start, stop,
process_count, prefix)`; two runs on identical inputs produce identical
partitions. -/
theorem partition_deterministic (it it' pref pref' : String) (s s' t t' P P' : Int)
    (h1 : it = it') (h2 : s = s') (h3 : t = t') (h4 : P = P') (h5 : pref = pref') :
    args_list it s t P pref = args_list it' s' t' P' pref' := by
  subst h1
  subst h2
  subst h3
  subst h4
  subst h5
  rfl

theorem partition_deterministic_witness :
    args_list "order" 5 7 2 "WO" = args_list "order" 5 7 2 "WO" :=
  partition_deterministic "order" "order" "WO" "WO" 5 5 7 7 2 2 rfl rfl rfl rfl rfl

/-- C9: for every contiguous range and `process_count ≥ 1`, the
mod-based partition is balanced to within one — any two workers'
buckets differ in length by at most 1. -/
theorem bucket_balance (item_type pref : String) (start stop P : Int) (hP : 1 ≤ P) :
    ∀ w1 items1 w2 items2,
      (w1, items1) ∈ args_list item_type start stop P pref →
      (w2, items2) ∈ args_list item_type start stop P pref →
      items1.length ≤ items2.length + 1 := by
  intro w1 items1 w2 items2 hm1 hm2
  rcases mem_args_list.mp hm1 with ⟨p1, h10, h1P, hw1, hi1⟩
  rcases mem_args_list.mp hm2 with ⟨p2, h20, h2P, hw2, hi2⟩
  subst hi1
  subst hi2
  by_cases hreq : item_type = "request"
  · subst hreq
    rw [id_dict_request, id_dict_request, List.length_map, List.length_map]
    exact idsAssigned_balance (by omega) h10 h1P h20 h2P
  by_cases hord : item_type = "order"
  · subst hord
    rw [id_dict_order, id_dict_order, List.length_map, List.length_map]
    exact idsAssigned_balance (by omega) h10 h1P h20 h2P
  · rw [id_dict_other _ _ _ _ _ _ hreq hord, id_dict_other _ _ _ _ _ _ hreq hord]
    simp

theorem bucket_balance_witness :
    (id_dict "request" 0 5 2 "" 0).length ≤ (id_dict "request" 0 5 2 "" 1).length + 1 :=
  bucket_balance "request" "" 0 5 2 (by decide) 1 _ 2 _ (by decide) (by decide)

/-- C3: for `request` the range is floored (`start = max(1, start)`,
then `stop = max(start, stop)`) before partitioning and id 0 is never
scheduled; for `order` no flooring happens and each id is rendered as
`pref ++ str(id)`; a range with `start ≥ stop` yields empty buckets for
every worker without an error. -/
theorem flooring_policy (start stop P : Int) (pref : String) :
    floor_range "request" start stop = (max 1 start, max (max 1 start) stop)
    ∧ (∀ w items,
        (w, items) ∈ args_list "request" (floor_range "request" start stop).1
            (floor_range "request" start stop).2 P pref →
          ScrapedId.num 0 ∉ items)
    ∧ floor_range "order" start stop = (start, stop)
    ∧ (∀ w items, (w, items) ∈ args_list "order" start stop P pref →
        items = (idsAssigned start stop P (w - 1)).map
          (fun x => ScrapedId.str (pref ++ toString x)))
    ∧ (∀ (item_type : String) (s' t' : Int), t' ≤ s' →
        ∀ w items, (w, items) ∈ args_list item_type s' t' P pref → items = []) := by
  have hfr : floor_range "request" start stop = (max 1 start, max (max 1 start) stop) := by
    rw [floor_range, if_pos rfl]
  refine ⟨hfr, ?_, ?_, ?_, ?_⟩
  · intro w items hmem
    rcases mem_args_list.mp hmem with ⟨pid, hp0, hpP, hw, hi⟩
    subst hi
    rw [id_dict_request]
    intro hmm
    rcases List.mem_map.mp hmm with ⟨x, hx, hxe⟩
    have hx0 : x = 0 := num_injective hxe
    subst hx0
    rw [idsAssigned, List.mem_filter] at hx
    have := mem_intRange.mp hx.1
    rw [hfr] at this
    simp only at this
    omega
  · rw [floor_range, if_neg (by decide)]
  · intro w items hmem
    rcases mem_args_list.mp hmem with ⟨pid, hp0, hpP, hw, hi⟩
    subst hi
    have hw1 : w - 1 = pid := by omega
    rw [id_dict_order, hw1]
  · intro item_type s' t' hst w items hmem
    rcases mem_args_list.mp hmem with ⟨pid, hp0, hpP, hw, hi⟩
    subst hi
    rw [id_dict_eq, idsAssigned, intRange_empty hst]
    rfl

theorem flooring_policy_witness :
    ScrapedId.num 0 ∉ id_dict "request" (floor_range "request" 0 3).1
        (floor_range "request" 0 3).2 2 "" 0
    ∧ id_dict "order" 5 5 2 "WO" 0 = [] :=
  ⟨(flooring_policy 0 3 2 "").2.1 1 _ (by decide),
    (flooring_policy 0 0 2 "WO").2.2.2.2 "order" 5 5 (by decide) 1 _ (by decide)⟩

-- ### The per-item scrape model (Scraper.py, WebAutomation.py)

/-- Python's `str.strip(", ")`: remove every leading and trailing
character that is a comma or a space (used by
`WebAutomation.find_xpath_helper`). -/
def stripCommaSpace (s : String) : String :=
  String.mk
    (((s.data.dropWhile fun c => decide (c = ',' ∨ c = ' ')).reverse.dropWhile
        fun c => decide (c = ',' ∨ c = ' ')).reverse)

/-- Python's `s.startswith(pre)`, via char lists so that it evaluates
in the kernel. -/
def startswith (s pre : String) : Bool := pre.data.isPrefixOf s.data

/-- Python's slice `s[n:]`, via char lists so that it evaluates in the
kernel. -/
def drop_chars (s : String) (n : Nat) : String := String.mk (s.data.drop n)

/-- The page the webdriver is looking at, as the per-item scrape code
observes it: `find xpath` is `driver.find_element(By.XPATH, xpath).text`
(`none` models a raised `NoSuchElementException`), and `search_exc` is
the exception raised by `WebAutomation.search_item`, if any. -/
structure PageEnv where
  search_exc : Option String
  find : String → Option String

/-- Modelled from the spec: the record class of `WorkOrderRequest.py`
(not under src/). The constructor `WorkOrderRequest(request_id)` keeps
the requested id and defaults every scraped field to null — the
`found:false` empty-placeholder of the spec. -/
structure WorkOrderRequest where
  request_id : Int
  room : Option String := none
  status : Option String := none
  building : Option String := none
  tag : Option String := none
  accept_date : Option String := none
  reject_date : Option String := none
  reject_reason : Option String := none
  location : Option String := none
  item_description : Option String := none
  work_order_num : Option String := none
  area_description : Option String := none
  requested_action : Option String := none

/-- `WorkOrderRequest(request_id)`: the empty placeholder. -/
def WorkOrderRequest.empty (request_id : Int) : WorkOrderRequest :=
  { request_id := request_id }

/-- Modelled from the spec: the record class of `WorkOrder.py` (not
under src/); the constructor `WorkOrder(order_number)` keeps the order
number and defaults every scraped field to null. -/
structure WorkOrder where
  order_number : String
  facility : Option String := none
  building : Option String := none
  location_id : Option String := none
  priority : Option String := none
  request_date : Option String := none
  schedule_date : Option String := none
  work_status : Option String := none
  date_closed : Option String := none
  main_charge_account : Option String := none
  task_code : Option String := none
  reference_number : Option String := none
  tag_number : Option String := none
  item_description : Option String := none
  request_time : Option String := none
  date_last_posted : Option String := none
  trade : Option String := none
  contractor_name : Option String := none
  est_completion_date : Option String := none
  task_description : Option String := none
  requested_action : Option String := none
  corrective_action : Option String := none

/-- `WorkOrder(order_number)`: the empty placeholder. -/
def WorkOrder.empty (order_number : String) : WorkOrder :=
  { order_number := order_number }

namespace WebAutomation

/-- `WebAutomation.find_xpath_helper` (WebAutomation.py lines 81-96):
find an element by xpath and strip commas and spaces; any exception is
caught and yields `None`. -/
def find_xpath_helper (env : PageEnv) (xpath : String) : Option String :=
  (env.find xpath).map stripCommaSpace

/-- `WebAutomation.scrape_request` (WebAutomation.py lines 112-131):
search for the id, read the room anchor element directly (a miss raises
out of the function), then fill every other field through
`find_xpath_helper`. -/
def scrape_request (env : PageEnv) (request_id : Int) :
    Except String WorkOrderRequest :=
  match env.search_exc with
  | some e => Except.error e
  | none =>
    match env.find "//tr[3]/td[1]/p/font/b" with
    | none => Except.error "NoSuchElementException"
    | some t =>
      let request_room := if startswith t "for " then drop_chars t 4 else t
      Except.ok
        { request_id := request_id
          room := some request_room
          status := find_xpath_helper env "//tr[3]/td[2]/strong/font"
          building := find_xpath_helper env "/html/body/table/tbody/tr[2]/td[2]"
          tag := find_xpath_helper env "/html/body/table/tbody/tr[3]/td[2]"
          accept_date := find_xpath_helper env "/html/body/table/tbody/tr[4]/td[2]"
          reject_date := find_xpath_helper env "/html/body/table/tbody/tr[5]/td[2]"
          reject_reason := find_xpath_helper env "/html/body/table/tbody/tr[6]/td[2]"
          location := find_xpath_helper env "/html/body/table/tbody/tr[2]/td[4]"
          item_description := find_xpath_helper env "/html/body/table/tbody/tr[3]/td[4]"
          work_order_num := find_xpath_helper env "/html/body/table/tbody/tr[4]/td[4]"
          area_description := find_xpath_helper env "/html/body/table/tbody/tr[5]/td[4]"
          requested_action := find_xpath_helper env "/html/body/table/tbody/tr[8]/td[2]" }

/-- `WebAutomation.scrape_order` (WebAutomation.py lines 145-173):
search for the order number, then fill every field through
`find_xpath_helper`. -/
def scrape_order (env : PageEnv) (order_number : String) :
    Except String WorkOrder :=
  match env.search_exc with
  | some e => Except.error e
  | none =>
    Except.ok
      { order_number := order_number
        facility := find_xpath_helper env "/html/body/table/tbody/tr[6]/td[2]"
        building := find_xpath_helper env "/html/body/table/tbody/tr[7]/td[2]"
        location_id := find_xpath_helper env "/html/body/table/tbody/tr[8]/td[2]"
        priority := find_xpath_helper env "/html/body/table/tbody/tr[9]/td[2]"
        request_date := find_xpath_helper env "/html/body/table/tbody/tr[10]/td[2]"
        schedule_date := find_xpath_helper env "/html/body/table/tbody/tr[11]/td[2]"
        work_status := find_xpath_helper env "/html/body/table/tbody/tr[12]/td[2]"
        date_closed := find_xpath_helper env "/html/body/table/tbody/tr[13]/td[2]"
        main_charge_account := find_xpath_helper env "/html/body/table/tbody/tr[14]/td[2]"
        task_code := find_xpath_helper env "/html/body/table/tbody/tr[15]/td[2]/font"
        reference_number := find_xpath_helper env "/html/body/table/tbody/tr[6]/td[4]"
        tag_number := find_xpath_helper env "/html/body/table/tbody/tr[8]/td[4]"
        item_description := find_xpath_helper env "/html/body/table/tbody/tr[9]/td[4]"
        request_time := find_xpath_helper env "/html/body/table/tbody/tr[10]/td[4]"
        date_last_posted := find_xpath_helper env "/html/body/table/tbody/tr[11]/td[4]"
        trade := find_xpath_helper env "/html/body/table/tbody/tr[12]/td[4]"
        contractor_name := find_xpath_helper env "/html/body/table/tbody/tr[13]/td[4]"
        est_completion_date := find_xpath_helper env "/html/body/table/tbody/tr[14]/td[4]"
        task_description := find_xpath_helper env "/html/body/table/tbody/tr[15]/td[3]/font"
        requested_action := find_xpath_helper env "/html/body/table/tbody/tr[17]/td[2]"
        corrective_action := find_xpath_helper env "/html/body/table/tbody/tr[18]/td[2]" }

end WebAutomation

/-- The environment one item's scrape runs in.  `select_exc` is the
outcome of the category-selection call placed before the try-block in
`Scraper.scrape_request` / `Scraper.scrape_order`; modelled from the
spec as an abstract fallible effect (the called `WebAutomation`
selection routine is not under src/; the spec: choose the UI category
matching the kind before each item). -/
structure ItemEnv where
  select_exc : Option String
  page : PageEnv

namespace Scraper

/-- `Scraper.scrape_request` (Scraper.py lines 84-95): run category
selection outside the try-block, then scrape inside a bare
`try/except` that converts any exception into the empty placeholder
`WorkOrderRequest(request_id)`. -/
def scrape_request (env : ItemEnv) (request_id : Int) :
    Except String WorkOrderRequest :=
  match env.select_exc with
  | some e => Except.error e
  | none =>
    match WebAutomation.scrape_request env.page request_id with
    | Except.ok r => Except.ok r
    | Except.error _ => Except.ok (WorkOrderRequest.empty request_id)

/-- `Scraper.scrape_order` (Scraper.py lines 97-110): same shape as
`scrape_request`, with the placeholder `WorkOrder(order_number)`. -/
def scrape_order (env : ItemEnv) (order_number : String) :
    Except String WorkOrder :=
  match env.select_exc with
  | some e => Except.error e
  | none =>
    match WebAutomation.scrape_order env.page order_number with
    | Except.ok r => Except.ok r
    | Except.error _ => Except.ok (WorkOrder.empty order_number)

end Scraper

/-- The single result `Scraper.scrape_request` hands back when the
selection step succeeded: the scraped record, or the empty placeholder
on a total extraction failure. -/
def scrape_result (env : ItemEnv) (request_id : Int) : WorkOrderRequest :=
  match WebAutomation.scrape_request env.page request_id with
  | Except.ok r => r
  | Except.error _ => WorkOrderRequest.empty request_id

/-- Modelled from the spec: one worker session's item loop
(`MaintenanceDatabase.add_requests`, not under src/) — for each
assigned id in order, scrape it once and collect the result; an
exception escaping an item aborts the remaining items of the bucket. -/
def scrape_session (envs : Int → ItemEnv) :
    List Int → Except String (List WorkOrderRequest)
  | [] => Except.ok []
  | id :: rest =>
    match Scraper.scrape_request (envs id) id with
    | Except.error e => Except.error e
    | Except.ok r =>
      match scrape_session envs rest with
      | Except.error e => Except.error e
      | Except.ok rs => Except.ok (r :: rs)

theorem scrape_request_ok (env : ItemEnv) (request_id : Int)
    (h : env.select_exc = none) :
    Scraper.scrape_request env request_id =
      Except.ok (scrape_result env request_id) := by
  simp only [Scraper.scrape_request, h, scrape_result]
  cases hr : WebAutomation.scrape_request env.page request_id <;> simp

theorem scrape_request_err (env : ItemEnv) (request_id : Int) (e : String)
    (h : env.select_exc = some e) :
    Scraper.scrape_request env request_id = Except.error e := by
  simp only [Scraper.scrape_request, h]

/-- C2: a total extraction failure (any exception inside the per-item
try-block) yields the empty placeholder carrying the requested id with
every field null, instead of propagating; with selection succeeding the
session advances through its whole bucket, producing exactly one result
per item, in order, with no retry. -/
theorem scrape_fault_isolation :
    (∀ (env : ItemEnv) (request_id : Int) (e : String),
        env.select_exc = none →
        WebAutomation.scrape_request env.page request_id = Except.error e →
        Scraper.scrape_request env request_id =
          Except.ok (WorkOrderRequest.empty request_id))
    ∧ (∀ request_id : Int,
        (WorkOrderRequest.empty request_id).request_id = request_id
        ∧ (WorkOrderRequest.empty request_id).room = none
        ∧ (WorkOrderRequest.empty request_id).status = none
        ∧ (WorkOrderRequest.empty request_id).building = none
        ∧ (WorkOrderRequest.empty request_id).tag = none
        ∧ (WorkOrderRequest.empty request_id).accept_date = none
        ∧ (WorkOrderRequest.empty request_id).reject_date = none
        ∧ (WorkOrderRequest.empty request_id).reject_reason = none
        ∧ (WorkOrderRequest.empty request_id).location = none
        ∧ (WorkOrderRequest.empty request_id).item_description = none
        ∧ (WorkOrderRequest.empty request_id).work_order_num = none
        ∧ (WorkOrderRequest.empty request_id).area_description = none
        ∧ (WorkOrderRequest.empty request_id).requested_action = none)
    ∧ (∀ (env : ItemEnv) (order_number : String) (e : String),
        env.select_exc = none →
        WebAutomation.scrape_order env.page order_number = Except.error e →
        Scraper.scrape_order env order_number =
          Except.ok (WorkOrder.empty order_number))
    ∧ (∀ order_number : String,
        (WorkOrder.empty order_number).order_number = order_number
        ∧ (WorkOrder.empty order_number).facility = none
        ∧ (WorkOrder.empty order_number).building = none
        ∧ (WorkOrder.empty order_number).location_id = none
        ∧ (WorkOrder.empty order_number).priority = none
        ∧ (WorkOrder.empty order_number).request_date = none
        ∧ (WorkOrder.empty order_number).schedule_date = none
        ∧ (WorkOrder.empty order_number).work_status = none
        ∧ (WorkOrder.empty order_number).date_closed = none
        ∧ (WorkOrder.empty order_number).main_charge_account = none
        ∧ (WorkOrder.empty order_number).task_code = none
        ∧ (WorkOrder.empty order_number).reference_number = none
        ∧ (WorkOrder.empty order_number).tag_number = none
        ∧ (WorkOrder.empty order_number).item_description = none
        ∧ (WorkOrder.empty order_number).request_time = none
        ∧ (WorkOrder.empty order_number).date_last_posted = none
        ∧ (WorkOrder.empty order_number).trade = none
        ∧ (WorkOrder.empty order_number).contractor_name = none
        ∧ (WorkOrder.empty order_number).est_completion_date = none
        ∧ (WorkOrder.empty order_number).task_description = none
        ∧ (WorkOrder.empty order_number).requested_action = none
        ∧ (WorkOrder.empty order_number).corrective_action = none)
    ∧ (∀ (envs : Int → ItemEnv) (ids : List Int),
        (∀ i ∈ ids, (envs i).select_exc = none) →
        scrape_session envs ids =
          Except.ok (ids.map fun i => scrape_result (envs i) i)) := by
  refine ⟨?_, ?_, ?_, ?_, ?_⟩
  · intro env request_id e hsel herr
    simp only [Scraper.scrape_request, hsel, herr]
  · intro request_id
    exact ⟨rfl, rfl, rfl, rfl, rfl, rfl, rfl, rfl, rfl, rfl, rfl, rfl, rfl⟩
  · intro env order_number e hsel herr
    simp only [Scraper.scrape_order, hsel, herr]
  · intro order_number
    exact ⟨rfl, rfl, rfl, rfl, rfl, rfl, rfl, rfl, rfl, rfl, rfl, rfl, rfl, rfl,
      rfl, rfl, rfl, rfl, rfl, rfl, rfl, rfl⟩
  · intro envs ids hsel
    induction ids with
    | nil => rfl
    | cons a rest ih =>
      have ha : (envs a).select_exc = none := hsel a (List.mem_cons_self a rest)
      have hrest : ∀ i ∈ rest, (envs i).select_exc = none :=
        fun i hi => hsel i (List.mem_cons_of_mem a hi)
      simp only [scrape_session, scrape_request_ok (envs a) a ha, ih hrest, List.map_cons]

def envNav : ItemEnv :=
  { select_exc := none
    page := { search_exc := some "WebDriverException", find := fun _ => none } }

theorem scrape_fault_isolation_witness :
    Scraper.scrape_request envNav 42 = Except.ok (WorkOrderRequest.empty 42)
    ∧ scrape_session (fun _ => envNav) [1, 2] =
        Except.ok [WorkOrderRequest.empty 1, WorkOrderRequest.empty 2] := by
  constructor
  · exact scrape_fault_isolation.1 envNav 42 "WebDriverException" rfl rfl
  · rw [scrape_fault_isolation.2.2.2.2 (fun _ => envNav) [1, 2] (fun i _ => rfl)]
    rfl

/-- C10: the category-selection call sits before the per-item
exception handler in both `Scraper.scrape_request` and
`Scraper.scrape_order`, so an exception raised during selection
propagates to the caller (no placeholder) and aborts the rest of the
worker's bucket. -/
theorem select_outside_boundary :
    (∀ (env : ItemEnv) (request_id : Int) (e : String),
        env.select_exc = some e →
        Scraper.scrape_request env request_id = Except.error e)
    ∧ (∀ (env : ItemEnv) (order_number : String) (e : String),
        env.select_exc = some e →
        Scraper.scrape_order env order_number = Except.error e)
    ∧ (∀ (envs : Int → ItemEnv) (ids1 : List Int) (bad : Int) (ids2 : List Int)
          (e : String),
        (∀ i ∈ ids1, (envs i).select_exc = none) →
        (envs bad).select_exc = some e →
        scrape_session envs (ids1 ++ bad :: ids2) = Except.error e) := by
  refine ⟨?_, ?_, ?_⟩
  · intro env request_id e h
    exact scrape_request_err env request_id e h
  · intro env order_number e h
    simp only [Scraper.scrape_order, h]
  · intro envs ids1 bad ids2 e hsel hbad
    induction ids1 with
    | nil =>
      simp only [List.nil_append, scrape_session,
        scrape_request_err (envs bad) bad e hbad]
    | cons a rest ih =>
      have ha : (envs a).select_exc = none := hsel a (List.mem_cons_self a rest)
      have hrest : ∀ i ∈ rest, (envs i).select_exc = none :=
        fun i hi => hsel i (List.mem_cons_of_mem a hi)
      simp only [List.cons_append, scrape_session,
        scrape_request_ok (envs a) a ha]
      have hr : scrape_session envs (rest.append (bad :: ids2)) = Except.error e :=
        ih hrest
      rw [hr]

def envSel : ItemEnv :=
  { select_exc := some "AttributeError"
    page := { search_exc := none, find := fun _ => some "x" } }

theorem select_outside_boundary_witness :
    Scraper.scrape_request envSel 7 = Except.error "AttributeError"
    ∧ scrape_session (fun _ => envSel) [7] = Except.error "AttributeError" := by
  constructor
  · exact select_outside_boundary.1 envSel 7 "AttributeError" rfl
  · exact select_outside_boundary.2.2 (fun _ => envSel) [] 7 [] "AttributeError"
      (fun i hi => absurd hi (List.not_mem_nil i)) rfl

def envC7 : ItemEnv :=
  { select_exc := none
    page :=
      { search_exc := none
        find := fun xpath =>
          if xpath = "//tr[3]/td[1]/p/font/b" then none else some " OPEN, " } }

/-- C7 counterexample: the room anchor is a field of the request's
field set, yet with only its element missing — every other field's
element present — `Scraper.scrape_request` returns the all-null empty
placeholder: that single miss does fail the item. -/
theorem single_field_c7_cex :
    Scraper.scrape_request envC7 7 = Except.ok (WorkOrderRequest.empty 7)
    ∧ (WorkOrderRequest.empty 7).status = none
    ∧ WebAutomation.find_xpath_helper envC7.page "//tr[3]/td[2]/strong/font" =
        some "OPEN" :=
  ⟨rfl, rfl, rfl⟩

/-- C7 amended: for every helper-scraped field — every field of an
order, and every request field except the room anchor (whose absence is
a total extraction failure) — failure to locate the field's element
yields null for that field only: the item still produces a
non-placeholder result in which each field equals its own lookup,
unaffected by the other fields' lookups. -/
theorem single_field_miss_isolated :
    (∀ (page : PageEnv) (xpath : String),
        page.find xpath = none →
        WebAutomation.find_xpath_helper page xpath = none)
    ∧ (∀ (page : PageEnv) (request_id : Int) (t : String),
        page.search_exc = none →
        page.find "//tr[3]/td[1]/p/font/b" = some t →
        WebAutomation.scrape_request page request_id =
          Except.ok
            { request_id := request_id
              room := some (if startswith t "for " then drop_chars t 4 else t)
              status := WebAutomation.find_xpath_helper page "//tr[3]/td[2]/strong/font"
              building := WebAutomation.find_xpath_helper page "/html/body/table/tbody/tr[2]/td[2]"
              tag := WebAutomation.find_xpath_helper page "/html/body/table/tbody/tr[3]/td[2]"
              accept_date := WebAutomation.find_xpath_helper page "/html/body/table/tbody/tr[4]/td[2]"
              reject_date := WebAutomation.find_xpath_helper page "/html/body/table/tbody/tr[5]/td[2]"
              reject_reason := WebAutomation.find_xpath_helper page "/html/body/table/tbody/tr[6]/td[2]"
              location := WebAutomation.find_xpath_helper page "/html/body/table/tbody/tr[2]/td[4]"
              item_description := WebAutomation.find_xpath_helper page "/html/body/table/tbody/tr[3]/td[4]"
              work_order_num := WebAutomation.find_xpath_helper page "/html/body/table/tbody/tr[4]/td[4]"
              area_description := WebAutomation.find_xpath_helper page "/html/body/table/tbody/tr[5]/td[4]"
              requested_action := WebAutomation.find_xpath_helper page "/html/body/table/tbody/tr[8]/td[2]" })
    ∧ (∀ (page : PageEnv) (order_number : String),
        page.search_exc = none →
        WebAutomation.scrape_order page order_number =
          Except.ok
            { order_number := order_number
              facility := WebAutomation.find_xpath_helper page "/html/body/table/tbody/tr[6]/td[2]"
              building := WebAutomation.find_xpath_helper page "/html/body/table/tbody/tr[7]/td[2]"
              location_id := WebAutomation.find_xpath_helper page "/html/body/table/tbody/tr[8]/td[2]"
              priority := WebAutomation.find_xpath_helper page "/html/body/table/tbody/tr[9]/td[2]"
              request_date := WebAutomation.find_xpath_helper page "/html/body/table/tbody/tr[10]/td[2]"
              schedule_date := WebAutomation.find_xpath_helper page "/html/body/table/tbody/tr[11]/td[2]"
              work_status := WebAutomation.find_xpath_helper page "/html/body/table/tbody/tr[12]/td[2]"
              date_closed := WebAutomation.find_xpath_helper page "/html/body/table/tbody/tr[13]/td[2]"
              main_charge_account := WebAutomation.find_xpath_helper page "/html/body/table/tbody/tr[14]/td[2]"
              task_code := WebAutomation.find_xpath_helper page "/html/body/table/tbody/tr[15]/td[2]/font"
              reference_number := WebAutomation.find_xpath_helper page "/html/body/table/tbody/tr[6]/td[4]"
              tag_number := WebAutomation.find_xpath_helper page "/html/body/table/tbody/tr[8]/td[4]"
              item_description := WebAutomation.find_xpath_helper page "/html/body/table/tbody/tr[9]/td[4]"
              request_time := WebAutomation.find_xpath_helper page "/html/body/table/tbody/tr[10]/td[4]"
              date_last_posted := WebAutomation.find_xpath_helper page "/html/body/table/tbody/tr[11]/td[4]"
              trade := WebAutomation.find_xpath_helper page "/html/body/table/tbody/tr[12]/td[4]"
              contractor_name := WebAutomation.find_xpath_helper page "/html/body/table/tbody/tr[13]/td[4]"
              est_completion_date := WebAutomation.find_xpath_helper page "/html/body/table/tbody/tr[14]/td[4]"
              task_description := WebAutomation.find_xpath_helper page "/html/body/table/tbody/tr[15]/td[3]/font"
              requested_action := WebAutomation.find_xpath_helper page "/html/body/table/tbody/tr[17]/td[2]"
              corrective_action := WebAutomation.find_xpath_helper page "/html/body/table/tbody/tr[18]/td[2]" }) := by
  refine ⟨?_, ?_, ?_⟩
  · intro page xpath h
    simp [WebAutomation.find_xpath_helper, h]
  · intro page request_id t hs hf
    simp only [WebAutomation.scrape_request, hs, hf]
  · intro page order_number hs
    simp only [WebAutomation.scrape_order, hs]

def pageC7w : PageEnv :=
  { search_exc := none
    find := fun xpath =>
      if xpath = "//tr[3]/td[2]/strong/font" then none else some "for room 5" }

theorem single_field_miss_isolated_witness :
    WebAutomation.find_xpath_helper pageC7w "//tr[3]/td[2]/strong/font" = none
    ∧ WebAutomation.scrape_request pageC7w 3 =
        Except.ok
          { request_id := 3
            room := some "room 5"
            status := none
            building := some "for room 5"
            tag := some "for room 5"
            accept_date := some "for room 5"
            reject_date := some "for room 5"
            reject_reason := some "for room 5"
            location := some "for room 5"
            item_description := some "for room 5"
            work_order_num := some "for room 5"
            area_description := some "for room 5"
            requested_action := some "for room 5" } := by
  constructor
  · exact single_field_miss_isolated.1 pageC7w "//tr[3]/td[2]/strong/font" rfl
  · rw [single_field_miss_isolated.2.1 pageC7w 3 "for room 5" rfl rfl]
    rfl

-- ### Profile cloning (Scraper.initialize_driver, lines 53-62)

/-- An on-disk directory tree (named entries with subtrees). -/
inductive DirTree where
  | node : List (String × DirTree) → DirTree

/-- The `Profiles` store: maps `(profile_name, process_id)` — the path
`Profiles/<sha256(username)>/p<process_id>` — to the directory tree at
that path, `none` when the path does not exist. -/
def ProfileFS : Type := String × Nat → Option DirTree

/-- The profile block of `Scraper.initialize_driver` (Scraper.py lines
53-62): if the instance path exists, nothing happens; otherwise
process 0 gets a fresh empty directory (`os.makedirs`) and any other
process gets a full copy of the `p0` tree (`shutil.copytree`, which
raises if the source is missing).  The returned Bool records whether a
copy was performed. -/
def init_profile (fs : ProfileFS) (profile_name : String) (process_id : Nat) :
    Except String (ProfileFS × Bool) :=
  match fs (profile_name, process_id) with
  | some _ => Except.ok (fs, false)
  | none =>
    if process_id = 0 then
      Except.ok
        ((fun k => if k = (profile_name, 0) then some (DirTree.node []) else fs k),
          false)
    else
      match fs (profile_name, 0) with
      | some base =>
          Except.ok
            ((fun k => if k = (profile_name, process_id) then some base else fs k),
              true)
      | none => Except.error "FileNotFoundError"

/-- C5: the profile-clone operation is idempotent and a no-op on an
existing target: when `(profile_name, process_id)` already exists no
copy happens and the store is unchanged; when it is absent and
`process_id > 0`, the clone is created only by copying the whole
instance-0 tree (and a second call is then a no-op). -/
theorem profile_clone_noop :
    (∀ (fs : ProfileFS) (name : String) (pid : Nat) (d : DirTree),
        fs (name, pid) = some d →
        init_profile fs name pid = Except.ok (fs, false))
    ∧ (∀ (fs : ProfileFS) (name : String) (pid : Nat) (base : DirTree),
        fs (name, pid) = none → pid ≠ 0 → fs (name, 0) = some base →
        ∃ fs', init_profile fs name pid = Except.ok (fs', true)
          ∧ fs' (name, pid) = some base
          ∧ (∀ k, k ≠ (name, pid) → fs' k = fs k)
          ∧ init_profile fs' name pid = Except.ok (fs', false)) := by
  constructor
  · intro fs name pid d h
    simp only [init_profile, h]
  · intro fs name pid base h hpid h0
    refine ⟨(fun k => if k = (name, pid) then some base else fs k), ?_, ?_, ?_, ?_⟩
    · simp only [init_profile, h, if_neg hpid, h0]
    · simp
    · intro k hk
      simp only [if_neg hk]
    · simp [init_profile]

def fsWitness : ProfileFS :=
  fun k => if k = ("h", 0) ∨ k = ("h", 1) then some (DirTree.node []) else none

theorem profile_clone_noop_witness :
    init_profile fsWitness "h" 1 = Except.ok (fsWitness, false) :=
  profile_clone_noop.1 fsWitness "h" 1 (DirTree.node []) rfl

-- ### Parallel-run sequencing (Driver.add_item_range_parallel, lines 186-192)

/-- What one worker process does, seen from the parent: the helper
body either returns normally (success, or a `KeyboardInterrupt` that
its `except` clause catches after closing the database) or dies with
an uncaught exception — e.g. the authentication crash documented in
`Scraper.login_calnet`, raised while constructing the worker's
database, outside the helper's try-block. -/
inductive WorkerOutcome where
  | success
  | interrupted
  | fatal (e : String)
deriving DecidableEq

/-- The termination behaviour of `Driver.add_item_range_parallel_helper`
(Driver.py lines 146-152): only `KeyboardInterrupt` is caught; any
other exception propagates out of the worker. -/
def helper_run : WorkerOutcome → Except String Unit
  | WorkerOutcome.success => Except.ok ()
  | WorkerOutcome.interrupted => Except.ok ()
  | WorkerOutcome.fatal e => Except.error e

/-- The first uncaught worker exception of a run, if any. -/
def first_err : List WorkerOutcome → Option String
  | [] => none
  | o :: rest =>
    match helper_run o with
    | Except.error e => some e
    | Except.ok _ => first_err rest

/-- Observable events of `Driver.add_item_range_parallel` (Driver.py
lines 186-192). -/
inductive Event where
  | close_primary
  | run_worker (o : WorkerOutcome)
  | reopen_primary
deriving DecidableEq

/-- `Pool.starmap` runs every submitted worker to termination, then
re-raises the first uncaught worker exception in the parent. -/
def pool_starmap (outcomes : List WorkerOutcome) : List Event × Option String :=
  (outcomes.map Event.run_worker, first_err outcomes)

/-- The sequencing of `Driver.add_item_range_parallel` (lines 186-192):
`self.database.close(); del self.database` before the Pool block, then
`pool.starmap(...)`, then `self.database = self.connect_primary_database()`
— which runs only if `starmap` returned without re-raising a worker
exception.  The result is the emitted event trace plus the exception
propagating to the caller, if any. -/
def add_item_range_parallel (outcomes : List WorkerOutcome) :
    List Event × Option String :=
  match pool_starmap outcomes with
  | (es, none) => (Event.close_primary :: es ++ [Event.reopen_primary], none)
  | (es, some e) => (Event.close_primary :: es, some e)

/-- C4 counterexample: a run whose single worker dies with an uncaught
exception (an authentication failure) terminates every worker, yet the
primary session is never reopened — the reopen is not performed
"regardless of individual worker outcomes". -/
theorem primary_reopen_cex :
    add_item_range_parallel [WorkerOutcome.fatal "AuthenticationError"] =
      ([Event.close_primary,
          Event.run_worker (WorkerOutcome.fatal "AuthenticationError")],
        some "AuthenticationError")
    ∧ Event.reopen_primary ∉
        (add_item_range_parallel [WorkerOutcome.fatal "AuthenticationError"]).1 := by
  refine ⟨rfl, by decide⟩

theorem first_err_none (outcomes : List WorkerOutcome)
    (h : ∀ o ∈ outcomes, helper_run o = Except.ok ()) :
    first_err outcomes = none := by
  induction outcomes with
  | nil => rfl
  | cons a rest ih =>
    have ha := h a (List.mem_cons_self a rest)
    have hrest := fun o ho => h o (List.mem_cons_of_mem a ho)
    simp only [first_err, ha, ih hrest]

/-- C4 amended: in every parallel run the primary session is closed
before any worker event; and whenever no worker dies with an uncaught
exception (success and in-worker-handled interrupts both qualify), the
primary session is reopened after all worker events, with nothing
propagating to the caller. -/
theorem primary_session_barrier (outcomes : List WorkerOutcome) :
    (add_item_range_parallel outcomes).1.head? = some Event.close_primary
    ∧ ((∀ o ∈ outcomes, helper_run o = Except.ok ()) →
        add_item_range_parallel outcomes =
          (Event.close_primary :: outcomes.map Event.run_worker
              ++ [Event.reopen_primary],
            none)) := by
  constructor
  · rw [add_item_range_parallel, pool_starmap]
    cases h : first_err outcomes <;> simp
  · intro h
    rw [add_item_range_parallel, pool_starmap, first_err_none outcomes h]

theorem primary_session_barrier_witness :
    add_item_range_parallel [WorkerOutcome.success, WorkerOutcome.interrupted] =
      ([Event.close_primary, Event.run_worker WorkerOutcome.success,
          Event.run_worker WorkerOutcome.interrupted, Event.reopen_primary],
        none) := by
  have h := (primary_session_barrier
    [WorkerOutcome.success, WorkerOutcome.interrupted]).2 ?_
  · rw [h]
    rfl
  · intro o ho
    rcases List.mem_cons.mp ho with rfl | ho2
    · rfl
    · rcases List.mem_cons.mp ho2 with rfl | ho3
      · rfl
      · cases ho3
